import Mathlib

/-!
Verification of the Truckingapp backend (src/main.py).

The FastAPI service is embedded shallowly:

* Database tables (users, packages) become explicit Lean lists that each
  handler threads through; SQLAlchemy primary-key assignment becomes the
  function `nextId` (one more than the largest identifier in the table,
  matching SQLite rowid assignment).
* The bcrypt hash/verify pair from passlib is an external collaborator; the
  handlers are parameterised over `hash : String -> String` and
  `verify : String -> String -> Bool` (verify takes the plain password first,
  then the stored hash, exactly as `pwd_context.verify(user.password,
  db_user.password)` does).
* Outbound HTTP calls (Geoapify map matching, weather.gov alerts) are
  parameters of sum type describing what the network interaction produced:
  a transport-level exception, a 2xx body that is not valid JSON, or parsed
  data.  Parsed JSON objects with optional keys become structures with
  `Option` fields; a missing key that Python would answer with a KeyError
  becomes the `none` case.
* `raise HTTPException(status_code, detail)` becomes `Except.error` carrying
  an `HTTPException` record; a normal return becomes `Except.ok`.
* Python datetimes are modelled as integer epoch seconds, so
  `timedelta(hours=30)` is `30 * 3600` seconds.
* Python numbers appearing in JSON payloads are modelled as `Rat`; the code
  only passes them through unchanged, so only their identity matters.
-/

/-- Python substring helper, auxiliary recursion over the haystack. -/
def strInAux (needle : List Char) : List Char → Bool
  | [] => needle.isEmpty
  | c :: t => List.isPrefixOf needle (c :: t) || strInAux needle t

/-- Python `needle in hay` on strings: substring containment. -/
def strIn (needle hay : String) : Bool :=
  strInAux needle.data hay.data

/-- Python `s.lower()`: lower-case every character. -/
def pyLower (s : String) : String :=
  ⟨s.data.map Char.toLower⟩

/-- `raise HTTPException(status_code=..., detail=...)`. -/
structure HTTPException where
  status_code : Nat
  detail : String
  deriving DecidableEq, Repr

/-- Row of the `users` table (class UserDB, src/main.py lines 29-35). -/
structure UserDB where
  id : Nat
  username : String
  email : String
  password : String
  is_active : Bool
  deriving DecidableEq, Repr

/-- Row of the `packages` table (class PackageDB, src/main.py lines 45-48). -/
structure PackageDB where
  id : Nat
  package_name : String
  deriving DecidableEq, Repr

/-- Request body of /create_user (class UserCreate). -/
structure UserCreate where
  username : String
  email : String
  password : String
  deriving DecidableEq, Repr

/-- Response model of /create_user (class UserOut): no password field. -/
structure UserOut where
  id : Nat
  username : String
  email : String
  deriving DecidableEq, Repr

/-- Request body of /login (class UserLogin). -/
structure UserLogin where
  username : String
  password : String
  deriving DecidableEq, Repr

/-- Success body of /login: `{"message": ..., "user_id": ...}`. -/
structure LoginOut where
  message : String
  user_id : Nat
  deriving DecidableEq, Repr

/-- Request body of /add_package (class PackageCreate). -/
structure PackageCreate where
  package_name : String
  deriving DecidableEq, Repr

/-- Response model of /add_package and /list_packages (class PackageOut). -/
structure PackageOut where
  id : Nat
  package_name : String
  deriving DecidableEq, Repr

/-- Request body of /fuel (class Fuel); the datetime is epoch seconds. -/
structure Fuel where
  current_time : Int
  deriving DecidableEq, Repr

/-- Response body of /fuel. -/
structure FuelOut where
  current_time : Int
  next_refuel_time : Int
  hours_until_refuel : Nat
  deriving DecidableEq, Repr

/-- Request body of /get_route (class RouteRequest). -/
structure RouteRequest where
  start_location : String
  end_location : String
  deriving DecidableEq, Repr

/-- Response model of /get_route (class RouteOut, src/main.py lines 99-106). -/
structure RouteOut where
  start_location : String
  end_location : String
  waypoints : Option (List String) := none
  distance : Option Rat := none
  estimated_time : Option Rat := none
  traffic_conditions : Option String := none
  route_type : Option String := none
  deriving DecidableEq, Repr

/-- Response model of /fetch_weather_alerts (class Weather, lines 108-114). -/
structure Weather where
  hurricane : Bool := false
  tornado : Bool := false
  snow : Bool := false
  flood : Bool := false
  wildfire : Bool := false
  earthquake : Bool := false
  deriving DecidableEq, Repr

/-- `properties` object of one Geoapify feature; each key may be absent. -/
structure RouteProps where
  distance : Option Rat := none
  duration : Option Rat := none
  traffic : Option String := none
  deriving DecidableEq, Repr

/-- One element of the Geoapify `features` array; `properties` may be absent
(`features[0].get("properties", {})` defaults it to the empty object). -/
structure RouteFeature where
  properties : Option RouteProps := none
  deriving DecidableEq, Repr

/-- Parsed Geoapify response body; a missing `features` key is the empty list
(`data.get("features", [])`). -/
structure GeoResponse where
  features : List RouteFeature := []
  deriving DecidableEq, Repr

/-- Outcome of the outbound Geoapify request: `requests.RequestException`
(connection error, timeout, or non-2xx via raise_for_status) or parsed data. -/
inductive GeoFetch where
  | requestFailure (msg : String)
  | success (data : GeoResponse)
  deriving DecidableEq, Repr

/-- `properties` object of one weather alert; the `event` key may be absent. -/
structure AlertProps where
  event : Option String := none
  deriving DecidableEq, Repr

/-- One element of the weather `features` array; `properties` may be absent. -/
structure AlertFeature where
  properties : Option AlertProps := none
  deriving DecidableEq, Repr

/-- Parsed weather.gov response body; a missing `features` key is the empty
list (`data.get("features", [])`). -/
structure AlertData where
  features : List AlertFeature := []
  deriving DecidableEq, Repr

/-- Outcome of the outbound weather.gov request: transport failure or non-2xx
status, a 2xx body that fails JSON decoding, or parsed data. -/
inductive WeatherFetch where
  | requestFailure (msg : String)
  | invalidJson (msg : String)
  | success (data : AlertData)
  deriving DecidableEq, Repr

/-- Store-assigned primary key: one more than the largest id in the table
(SQLite rowid assignment for an INTEGER PRIMARY KEY column). -/
def nextId (ids : List Nat) : Nat :=
  ids.foldr max 0 + 1

/-- create_user (src/main.py lines 123-132): reject with 400 when an existing
row matches on username or email, otherwise insert a row whose password
column holds the bcrypt hash and answer with the UserOut projection. -/
def create_user (hash : String → String) (users : List UserDB)
    (user : UserCreate) : Except HTTPException (List UserDB × UserOut) :=
  if users.any (fun x => x.username == user.username || x.email == user.email) then
    .error { status_code := 400, detail := "Username or email already registered" }
  else
    let db_user : UserDB :=
      { id := nextId (users.map (·.id)), username := user.username,
        email := user.email, password := hash user.password, is_active := true }
    .ok (users ++ [db_user],
      { id := db_user.id, username := db_user.username, email := db_user.email })

/-- login (src/main.py lines 134-139): look up the first row matching the
username; answer 401 when there is none or when verify fails. -/
def login (verify : String → String → Bool) (users : List UserDB)
    (user : UserLogin) : Except HTTPException LoginOut :=
  match users.find? (fun x => x.username == user.username) with
  | none => .error { status_code := 401, detail := "Invalid username or password" }
  | some db_user =>
    if verify user.password db_user.password then
      .ok { message := "Login successful", user_id := db_user.id }
    else
      .error { status_code := 401, detail := "Invalid username or password" }

/-- add_package (src/main.py lines 151-157): unconditional insert with a
store-assigned id; no duplicate check of any kind. -/
def add_package (packages : List PackageDB) (package : PackageCreate) :
    List PackageDB × PackageOut :=
  let new_package : PackageDB :=
    { id := nextId (packages.map (·.id)), package_name := package.package_name }
  (packages ++ [new_package],
   { id := new_package.id, package_name := new_package.package_name })

/-- list_packages (src/main.py lines 159-162): all rows in store order. -/
def list_packages (packages : List PackageDB) : List PackageOut :=
  packages.map (fun p => { id := p.id, package_name := p.package_name })

/-- remove_package (src/main.py lines 164-171): delete every row whose id
matches (`deleted` is the row count), then 200 when the count is non-zero and
404 otherwise.  The first component is the table after the commit. -/
def remove_package (packages : List PackageDB) (package_id : Nat) :
    List PackageDB × Except HTTPException String :=
  let deleted := packages.countP (fun p => p.id == package_id)
  let remaining := packages.filter (fun p => !(p.id == package_id))
  if deleted != 0 then
    (remaining, .ok "Package deleted")
  else
    (remaining, .error { status_code := 404, detail := "Package not found" })

/-- fuel handler body (src/main.py lines 173-180). -/
def fuel (estimate : Fuel) : FuelOut :=
  { current_time := estimate.current_time,
    next_refuel_time := estimate.current_time + 30 * 3600,
    hours_until_refuel := 30 }

/-- The /fuel endpoint including pydantic validation: a body whose
current_time does not parse as a datetime is rejected with 422 before the
handler runs; `none` stands for such a malformed body. -/
def fuel_endpoint (body : Option Fuel) : Except HTTPException FuelOut :=
  match body with
  | none => .error { status_code := 422, detail := "value is not a valid datetime" }
  | some estimate => .ok (fuel estimate)

/-- Default for a missing `properties` key: the empty JSON object. -/
def emptyRouteProps : RouteProps := {}

/-- get_route (src/main.py lines 185-215): placeholder or empty API key fails
500 before any request is made; a RequestException fails 503; an empty
features array fails 404; otherwise the first feature is reshaped into a
RouteOut with route_type fixed to "fastest". -/
def get_route (apiKey : String) (fetch : GeoFetch) (route : RouteRequest) :
    Except HTTPException RouteOut :=
  if apiKey == "" || apiKey == "your_api_key_here" then
    .error { status_code := 500, detail := "Geoapify API key not configured" }
  else
    match fetch with
    | .requestFailure msg =>
      .error { status_code := 503, detail := "Error connecting to Geoapify: " ++ msg }
    | .success data =>
      match data.features with
      | [] => .error { status_code := 404, detail := "No route found" }
      | f :: _ =>
        let route_info := f.properties.getD emptyRouteProps
        .ok { start_location := route.start_location,
              end_location := route.end_location,
              waypoints := none,
              distance := route_info.distance,
              estimated_time := route_info.duration,
              traffic_conditions := route_info.traffic,
              route_type := some "fastest" }

/-- One turn of the alert loop (src/main.py lines 225-235): lower-case the
event text and walk the if/elif chain, setting at most the first matching
flag on the accumulated Weather value. -/
def classifyEvent (weather : Weather) (event : String) : Weather :=
  let e := pyLower event
  if strIn "hurricane" e then { weather with hurricane := true }
  else if strIn "tornado" e then { weather with tornado := true }
  else if strIn "flood" e then { weather with flood := true }
  else if strIn "snow" e || strIn "winter" e then { weather with snow := true }
  else if strIn "fire" e || strIn "wildfire" e then { weather with wildfire := true }
  else weather

/-- The alert loop (src/main.py lines 224-235).  `alert["properties"]` and
`["event"]` are unguarded dict accesses: a missing key raises a KeyError,
which the surrounding try/except turns into the 503 response, discarding the
partially built Weather value. -/
def classifyAlerts (weather : Weather) : List AlertFeature → Except String Weather
  | [] => .ok weather
  | alert :: rest =>
    match alert.properties with
    | none => .error "KeyError: properties"
    | some props =>
      match props.event with
      | none => .error "KeyError: event"
      | some ev => classifyAlerts (classifyEvent weather ev) rest

/-- fetch_weather_alerts (src/main.py lines 217-238): every exception raised
while fetching, decoding, or walking the alerts becomes the 503 response;
otherwise the accumulated flags are returned. -/
def fetch_weather_alerts (resp : WeatherFetch) : Except HTTPException Weather :=
  match resp with
  | .requestFailure msg =>
    .error { status_code := 503, detail := "Weather API error: " ++ msg }
  | .invalidJson msg =>
    .error { status_code := 503, detail := "Weather API error: " ++ msg }
  | .success data =>
    match classifyAlerts {} data.features with
    | .error msg => .error { status_code := 503, detail := "Weather API error: " ++ msg }
    | .ok weather => .ok weather

/-- Per-alert classification as the spec words it: test the lower-cased event
text against the ordered keyword groups and set exactly the flag of the first
matching group, every other flag staying false.  Compared against
`classifyEvent`, which is translated from the code. -/
def classifyAlertSpec (event : String) : Weather :=
  let e := pyLower event
  if strIn "hurricane" e then { hurricane := true }
  else if strIn "tornado" e then { tornado := true }
  else if strIn "flood" e then { flood := true }
  else if strIn "snow" e || strIn "winter" e then { snow := true }
  else if strIn "fire" e || strIn "wildfire" e then { wildfire := true }
  else {}

/-- Field-wise disjunction of two flag records. -/
def orWeather (a b : Weather) : Weather :=
  { hurricane := a.hurricane || b.hurricane,
    tornado := a.tornado || b.tornado,
    snow := a.snow || b.snow,
    flood := a.flood || b.flood,
    wildfire := a.wildfire || b.wildfire,
    earthquake := a.earthquake || b.earthquake }

/-- Number of flags set in a Weather record. -/
def flagCount (w : Weather) : Nat :=
  w.hurricane.toNat + w.tornado.toNat + w.snow.toNat +
    w.flood.toNat + w.wildfire.toNat + w.earthquake.toNat

/-- A well-formed alert feature carrying the given event text. -/
def alertOf (event : String) : AlertFeature :=
  { properties := some { event := some event } }

/-- The row create_user inserts for a fresh registration: the let-bound
db_user of src/main.py lines 128-131, with the hashed password. -/
def insertedUser (hash : String → String) (users : List UserDB)
    (user : UserCreate) : UserDB :=
  { id := nextId (users.map (·.id)), username := user.username,
    email := user.email, password := hash user.password, is_active := true }

/-! ## Helper lemmas -/

lemma mem_le_foldr_max {n : Nat} {ids : List Nat} (h : n ∈ ids) :
    n ≤ ids.foldr max 0 := by
  induction ids with
  | nil => cases h
  | cons i t ih =>
    rcases List.mem_cons.mp h with rfl | hmem
    · exact le_max_left _ _
    · exact le_trans (ih hmem) (le_max_right _ _)

lemma id_lt_nextId {p : PackageDB} {packages : List PackageDB} (h : p ∈ packages) :
    p.id < nextId (packages.map (·.id)) := by
  have hle : p.id ≤ (packages.map (·.id)).foldr max 0 :=
    mem_le_foldr_max (List.mem_map_of_mem (·.id) h)
  unfold nextId
  omega

lemma classifyEvent_eq_orWeather (w : Weather) (e : String) :
    classifyEvent w e = orWeather w (classifyAlertSpec e) := by
  cases h1 : strIn "hurricane" (pyLower e) <;>
  cases h2 : strIn "tornado" (pyLower e) <;>
  cases h3 : strIn "flood" (pyLower e) <;>
  cases h4 : strIn "snow" (pyLower e) || strIn "winter" (pyLower e) <;>
  cases h5 : strIn "fire" (pyLower e) || strIn "wildfire" (pyLower e) <;>
  simp [classifyEvent, classifyAlertSpec, orWeather, h1, h2, h3, h4, h5]

lemma flagCount_classifyAlertSpec_le_one (e : String) :
    flagCount (classifyAlertSpec e) ≤ 1 := by
  cases h1 : strIn "hurricane" (pyLower e) <;>
  cases h2 : strIn "tornado" (pyLower e) <;>
  cases h3 : strIn "flood" (pyLower e) <;>
  cases h4 : strIn "snow" (pyLower e) || strIn "winter" (pyLower e) <;>
  cases h5 : strIn "fire" (pyLower e) || strIn "wildfire" (pyLower e) <;>
  simp [classifyAlertSpec, flagCount, h1, h2, h3, h4, h5]

lemma classifyAlertSpec_earthquake_false (e : String) :
    (classifyAlertSpec e).earthquake = false := by
  cases h1 : strIn "hurricane" (pyLower e) <;>
  cases h2 : strIn "tornado" (pyLower e) <;>
  cases h3 : strIn "flood" (pyLower e) <;>
  cases h4 : strIn "snow" (pyLower e) || strIn "winter" (pyLower e) <;>
  cases h5 : strIn "fire" (pyLower e) || strIn "wildfire" (pyLower e) <;>
  simp [classifyAlertSpec, h1, h2, h3, h4, h5]

lemma classifyAlerts_map_alertOf (events : List String) : ∀ w : Weather,
    classifyAlerts w (events.map alertOf) = .ok (events.foldl classifyEvent w) := by
  induction events with
  | nil => intro w; rfl
  | cons e rest ih => intro w; simpa [classifyAlerts, alertOf] using ih (classifyEvent w e)

lemma foldl_classifyEvent_eq (events : List String) (w : Weather) :
    events.foldl classifyEvent w =
      events.foldl (fun acc e => orWeather acc (classifyAlertSpec e)) w := by
  have hfun : classifyEvent = fun acc e => orWeather acc (classifyAlertSpec e) :=
    funext fun acc => funext fun e => classifyEvent_eq_orWeather acc e
  rw [hfun]

/-! ## Claim theorems -/

/-- C1: fetch_weather_alerts classifies each alert by lower-casing its event
text and testing substring membership against the ordered keyword groups
hurricane, tornado, flood, snow or winter, fire or wildfire; the first
matching group sets the flag, each alert sets at most one flag, flags are
OR-ed across alerts, the earthquake flag is always false; one alert with
event text "Winter Storm Warning" yields snow and nothing else, zero alerts
yield all six flags false. -/
theorem weather_classifier_first_match :
    (∀ events : List String,
      fetch_weather_alerts (.success { features := events.map alertOf }) =
        .ok (events.foldl (fun acc e => orWeather acc (classifyAlertSpec e)) {}))
    ∧ (∀ e, flagCount (classifyAlertSpec e) ≤ 1)
    ∧ (∀ e, (classifyAlertSpec e).earthquake = false)
    ∧ fetch_weather_alerts (.success { features := [alertOf "Winter Storm Warning"] }) =
        .ok { snow := true }
    ∧ fetch_weather_alerts (.success { features := [] }) = .ok {} := by
  refine ⟨fun events => ?_, flagCount_classifyAlertSpec_le_one,
    classifyAlertSpec_earthquake_false, by rfl, rfl⟩
  simp [fetch_weather_alerts, classifyAlerts_map_alertOf, foldl_classifyEvent_eq]

/-- C2: for every timestamp T the fuel endpoint returns next_refuel_time
equal to T plus exactly 30 hours and hours_until_refuel equal to the
constant 30, echoing the input, and its only failure mode is rejecting a
malformed timestamp; purity is inherent to the embedding as a function of
the request alone. -/
theorem fuel_thirty_hours :
    (∀ T : Int, fuel_endpoint (some { current_time := T }) =
      .ok { current_time := T, next_refuel_time := T + 30 * 3600,
            hours_until_refuel := 30 })
    ∧ fuel_endpoint none =
      .error { status_code := 422, detail := "value is not a valid datetime" } :=
  ⟨fun _ => rfl, rfl⟩

/-- C8: add_package never fails and enforces no uniqueness on the name: it
always appends a record with a fresh store-assigned identifier, so a package
whose name already occurs coexists with the old record under distinct
identifiers. -/
theorem add_package_no_uniqueness (packages : List PackageDB)
    (package : PackageCreate) :
    (add_package packages package).1 =
      packages ++ [{ id := nextId (packages.map (·.id)),
                     package_name := package.package_name }]
    ∧ (add_package packages package).2 =
      { id := nextId (packages.map (·.id)), package_name := package.package_name }
    ∧ ∀ p ∈ packages, p.id ≠ nextId (packages.map (·.id))
        ∧ p ∈ (add_package packages package).1
        ∧ ({ id := nextId (packages.map (·.id)),
             package_name := package.package_name } : PackageDB) ∈
            (add_package packages package).1 := by
  refine ⟨rfl, rfl, fun p hp => ⟨Nat.ne_of_lt (id_lt_nextId hp), ?_, ?_⟩⟩
  · simp only [add_package]
    exact List.mem_append_left _ hp
  · simp [add_package]

/-- Witness for C8 at a store already holding a package named "box". -/
theorem add_package_no_uniqueness_witness :
    (⟨1, "box"⟩ : PackageDB) ∈ [(⟨1, "box"⟩ : PackageDB)]
    ∧ ((⟨1, "box"⟩ : PackageDB).id ≠ nextId ([(⟨1, "box"⟩ : PackageDB)].map (·.id))
       ∧ (⟨1, "box"⟩ : PackageDB) ∈
          (add_package [⟨1, "box"⟩] { package_name := "box" }).1
       ∧ ({ id := nextId ([(⟨1, "box"⟩ : PackageDB)].map (·.id)),
            package_name := "box" } : PackageDB) ∈
          (add_package [⟨1, "box"⟩] { package_name := "box" }).1) :=
  ⟨by decide,
   (add_package_no_uniqueness [⟨1, "box"⟩] { package_name := "box" }).2.2
     ⟨1, "box"⟩ (by decide)⟩

/-- C9: every successful get_route response has waypoints equal to none; the
field is never populated from the request or the upstream response. -/
theorem get_route_waypoints_always_none (apiKey : String) (fetch : GeoFetch)
    (route : RouteRequest) (out : RouteOut)
    (h : get_route apiKey fetch route = .ok out) : out.waypoints = none := by
  unfold get_route at h
  split at h
  · exact Except.noConfusion h
  · split at h
    · exact Except.noConfusion h
    · split at h
      · exact Except.noConfusion h
      · rw [Except.ok.injEq] at h
        subst h
        rfl

/-- Witness for C9 on a one-feature response with waypoint-free properties. -/
theorem get_route_waypoints_always_none_witness :
    get_route "k"
        (.success { features :=
          [{ properties := some { distance := some 1, duration := some 2,
                                  traffic := some "low" } }] })
        { start_location := "A", end_location := "B" } =
      .ok { start_location := "A", end_location := "B", waypoints := none,
            distance := some 1, estimated_time := some 2,
            traffic_conditions := some "low", route_type := some "fastest" }
    ∧ ({ start_location := "A", end_location := "B", waypoints := none,
         distance := some 1, estimated_time := some 2,
         traffic_conditions := some "low",
         route_type := some "fastest" } : RouteOut).waypoints = none :=
  ⟨rfl,
   get_route_waypoints_always_none "k"
     (.success { features :=
       [{ properties := some { distance := some 1, duration := some 2,
                               traffic := some "low" } }] })
     { start_location := "A", end_location := "B" } _ rfl⟩

lemma any_dup_eq_false {users : List UserDB} {user : UserCreate}
    (hfresh : ∀ x ∈ users, x.username ≠ user.username ∧ x.email ≠ user.email) :
    users.any (fun x => x.username == user.username || x.email == user.email) =
      false := by
  rw [List.any_eq_false]
  intro x hx
  rcases hfresh x hx with ⟨h1, h2⟩
  simp [h1, h2]

/-- C3: create_user rejects with the 400 duplicate error when an existing
user matches on username or email; otherwise it appends a user whose stored
password is the hash of the submitted password and returns exactly the
identifier, username, and email of the created user, never the password or
its hash. -/
theorem create_user_duplicate_or_insert (hash : String → String)
    (users : List UserDB) (user : UserCreate) :
    ((∃ x ∈ users, x.username = user.username ∨ x.email = user.email) →
      create_user hash users user =
        .error { status_code := 400,
                 detail := "Username or email already registered" })
    ∧ ((∀ x ∈ users, x.username ≠ user.username ∧ x.email ≠ user.email) →
      create_user hash users user =
        .ok (users ++ [insertedUser hash users user],
             { id := nextId (users.map (·.id)), username := user.username,
               email := user.email })) := by
  constructor
  · rintro ⟨x, hx, hor⟩
    have hany : users.any
        (fun y => y.username == user.username || y.email == user.email) = true :=
      List.any_eq_true.mpr ⟨x, hx, by rcases hor with h | h <;> simp [h]⟩
    simp [create_user, hany]
  · intro hfresh
    simp [create_user, insertedUser, any_dup_eq_false hfresh]

/-- Witness for C3: a duplicate username is rejected, a fresh pair is
inserted with the hashed password and answered without it. -/
theorem create_user_duplicate_or_insert_witness :
    create_user (fun p => "h:" ++ p)
        [{ id := 1, username := "alice", email := "a@x.io",
           password := "h:pw", is_active := true }]
        { username := "alice", email := "b@x.io", password := "pw2" } =
      .error { status_code := 400,
               detail := "Username or email already registered" }
    ∧ create_user (fun p => "h:" ++ p) []
        { username := "alice", email := "a@x.io", password := "pw" } =
      .ok ([{ id := 1, username := "alice", email := "a@x.io",
              password := "h:pw", is_active := true }],
           { id := 1, username := "alice", email := "a@x.io" }) :=
  ⟨(create_user_duplicate_or_insert (fun p => "h:" ++ p)
      [{ id := 1, username := "alice", email := "a@x.io",
         password := "h:pw", is_active := true }]
      { username := "alice", email := "b@x.io", password := "pw2" }).1
      ⟨{ id := 1, username := "alice", email := "a@x.io",
         password := "h:pw", is_active := true }, by decide, Or.inl rfl⟩,
   (create_user_duplicate_or_insert (fun p => "h:" ++ p) []
      { username := "alice", email := "a@x.io", password := "pw" }).2
      (by simp)⟩

/-- C4: when username and email are fresh, create_user succeeds and a
subsequent login with the same username and password succeeds across the
hash/verify round trip, returning the success message and the created
identifier. -/
theorem create_then_login_succeeds (hash : String → String)
    (verify : String → String → Bool)
    (hround : ∀ p, verify p (hash p) = true)
    (users : List UserDB) (user : UserCreate)
    (hfresh : ∀ x ∈ users, x.username ≠ user.username ∧ x.email ≠ user.email) :
    ∃ users2 out, create_user hash users user = .ok (users2, out) ∧
      login verify users2 { username := user.username, password := user.password } =
        .ok { message := "Login successful", user_id := out.id } := by
  refine ⟨users ++ [insertedUser hash users user],
          { id := nextId (users.map (·.id)), username := user.username,
            email := user.email }, ?_, ?_⟩
  · simp [create_user, insertedUser, any_dup_eq_false hfresh]
  · have hnone : users.find? (fun x => x.username == user.username) = none :=
      List.find?_eq_none.mpr (fun x hx => by simp [(hfresh x hx).1])
    have hfind : (users ++ [insertedUser hash users user]).find?
          (fun x => x.username == user.username) =
        some (insertedUser hash users user) := by
      rw [List.find?_append, hnone]
      simp [insertedUser]
    simp only [login, hfind]
    simp [insertedUser, hround]

/-- Witness for C4 with a concrete hash/verify pair on an empty table. -/
theorem create_then_login_succeeds_witness :
    ∃ users2 out,
      create_user (fun p => "h:" ++ p) []
          { username := "alice", email := "a@x.io", password := "pw" } =
        .ok (users2, out) ∧
      login (fun p h => ("h:" ++ p) == h) users2
          { username := "alice", password := "pw" } =
        .ok { message := "Login successful", user_id := out.id } :=
  create_then_login_succeeds (fun p => "h:" ++ p) (fun p h => ("h:" ++ p) == h)
    (fun p => by simp) [] { username := "alice", email := "a@x.io", password := "pw" }
    (by simp)

/-- C5: login fails with the single undifferentiated 401 error exactly when
no stored user carries the username or verification of the password against
the stored hash fails; every error it produces is that same 401 value, and a
success carries only the fixed message and the user identifier. -/
theorem login_undifferentiated_unauthorized (verify : String → String → Bool)
    (users : List UserDB) (user : UserLogin) :
    (login verify users user =
        .error { status_code := 401, detail := "Invalid username or password" } ↔
      (∀ x ∈ users, x.username ≠ user.username) ∨
        ∃ x, users.find? (fun y => y.username == user.username) = some x ∧
          verify user.password x.password = false)
    ∧ (∀ e, login verify users user = .error e →
        e = { status_code := 401, detail := "Invalid username or password" })
    ∧ (∀ r, login verify users user = .ok r →
        ∃ x, users.find? (fun y => y.username == user.username) = some x ∧
          verify user.password x.password = true ∧
          r = { message := "Login successful", user_id := x.id }) := by
  cases hfind : users.find? (fun y => y.username == user.username) with
  | none =>
    refine ⟨iff_of_true (by simp [login, hfind]) (Or.inl ?_), ?_, ?_⟩
    · intro x hx
      have := List.find?_eq_none.mp hfind x hx
      simpa using this
    · intro e he
      simp [login, hfind] at he
      exact he.symm
    · intro r hr
      simp [login, hfind] at hr
  | some x =>
    have hx : x ∈ users := List.mem_of_find?_eq_some hfind
    have hpred := List.find?_some hfind
    cases hv : verify user.password x.password with
    | false =>
      refine ⟨iff_of_true (by simp [login, hfind, hv]) (Or.inr ⟨x, rfl, hv⟩),
        ?_, ?_⟩
      · intro e he
        simp [login, hfind, hv] at he
        exact he.symm
      · intro r hr
        simp [login, hfind, hv] at hr
    | true =>
      refine ⟨iff_of_false (by simp [login, hfind, hv]) ?_, ?_, ?_⟩
      · rintro (hall | ⟨y, hy, hvy⟩)
        · exact absurd (by simpa using hpred) (hall x hx)
        · cases hy
          simp [hv] at hvy
      · intro e he
        simp [login, hfind, hv] at he
      · intro r hr
        refine ⟨x, rfl, hv, ?_⟩
        simp [login, hfind, hv] at hr
        exact hr.symm

/-- Witness for C5: a wrong password on an existing account answers the 401
error, and a correct password answers the success record. -/
theorem login_undifferentiated_unauthorized_witness :
    (({ status_code := 401, detail := "Invalid username or password" } :
        HTTPException) =
      { status_code := 401, detail := "Invalid username or password" })
    ∧ ∃ x, ([{ id := 7, username := "alice", email := "a@x.io",
               password := "pw", is_active := true }] : List UserDB).find?
          (fun y => y.username == "alice") = some x ∧
        (fun p h => p == h) "pw" x.password = true ∧
        ({ message := "Login successful", user_id := 7 } : LoginOut) =
          { message := "Login successful", user_id := x.id } :=
  ⟨(login_undifferentiated_unauthorized (fun p h => p == h)
      [{ id := 7, username := "alice", email := "a@x.io",
         password := "pw", is_active := true }]
      { username := "alice", password := "bad" }).2.1
      { status_code := 401, detail := "Invalid username or password" } rfl,
   (login_undifferentiated_unauthorized (fun p h => p == h)
      [{ id := 7, username := "alice", email := "a@x.io",
         password := "pw", is_active := true }]
      { username := "alice", password := "pw" }).2.2
      { message := "Login successful", user_id := 7 } rfl⟩

lemma countP_id_le_one_of_nodup (packages : List PackageDB) (package_id : Nat)
    (h : (packages.map (·.id)).Nodup) :
    packages.countP (fun p => p.id == package_id) ≤ 1 := by
  induction packages with
  | nil => simp
  | cons p t ih =>
    rw [List.map_cons, List.nodup_cons] at h
    rcases h with ⟨hnotmem, hnodup⟩
    by_cases hp : p.id = package_id
    · have hzero : t.countP (fun q => q.id == package_id) = 0 := by
        rw [List.countP_eq_zero]
        intro q hq hq2
        simp only [beq_iff_eq] at hq2
        refine hnotmem ?_
        rw [hp, ← hq2]
        exact List.mem_map_of_mem (·.id) hq
      simp [List.countP_cons, hp, hzero]
    · simp only [List.countP_cons, hp]
      simpa [hp] using ih hnodup

/-- C6: remove_package answers success exactly when one row carried the
requested identifier (identifiers are store-assigned primary keys, hence
pairwise distinct); on a missing identifier it answers the 404 error and
leaves the stored packages unchanged. -/
theorem remove_package_success_iff (packages : List PackageDB)
    (package_id : Nat) (hids : (packages.map (·.id)).Nodup) :
    ((remove_package packages package_id).2 = .ok "Package deleted" ↔
      packages.countP (fun p => p.id == package_id) = 1)
    ∧ ((∀ p ∈ packages, p.id ≠ package_id) →
        (remove_package packages package_id).2 =
          .error { status_code := 404, detail := "Package not found" } ∧
        (remove_package packages package_id).1 = packages) := by
  constructor
  · by_cases hc : packages.countP (fun p => p.id == package_id) = 0
    · simp [remove_package, hc]
    · have hone : packages.countP (fun p => p.id == package_id) = 1 := by
        have := countP_id_le_one_of_nodup packages package_id hids
        omega
      simp [remove_package, hone]
  · intro hall
    have hc : packages.countP (fun p => p.id == package_id) = 0 := by
      rw [List.countP_eq_zero]
      intro p hp
      simpa using hall p hp
    have hfil : packages.filter (fun p => !(p.id == package_id)) = packages := by
      rw [List.filter_eq_self]
      intro p hp
      simpa using hall p hp
    simp [remove_package, hc, hfil]

/-- Witness for C6: deleting the only matching row succeeds, deleting a
missing identifier answers 404 and keeps the table. -/
theorem remove_package_success_iff_witness :
    ((remove_package [⟨1, "box"⟩] 1).2 = .ok "Package deleted" ↔
      ([(⟨1, "box"⟩ : PackageDB)]).countP (fun p => p.id == 1) = 1)
    ∧ ((remove_package [⟨1, "box"⟩] 2).2 =
        .error { status_code := 404, detail := "Package not found" }
       ∧ (remove_package [⟨1, "box"⟩] 2).1 = [⟨1, "box"⟩]) :=
  ⟨(remove_package_success_iff [⟨1, "box"⟩] 1 (by decide)).1,
   (remove_package_success_iff [⟨1, "box"⟩] 2 (by decide)).2 (by decide)⟩

/-- C7: get_route fails 500 on an absent or placeholder API key no matter
what the network would have answered, fails 404 on a response without route
candidates, and otherwise reshapes the first candidate into a RouteOut with
route_type fixed to "fastest"; the simulated one-feature response with
distance 100, duration 200, traffic "heavy" yields exactly those values. -/
theorem get_route_contract (apiKey : String) (fetch : GeoFetch)
    (route : RouteRequest) :
    ((apiKey = "" ∨ apiKey = "your_api_key_here") →
      get_route apiKey fetch route =
        .error { status_code := 500, detail := "Geoapify API key not configured" })
    ∧ (apiKey ≠ "" → apiKey ≠ "your_api_key_here" →
        (∀ data, fetch = .success data → data.features = [] →
          get_route apiKey fetch route =
            .error { status_code := 404, detail := "No route found" })
        ∧ (∀ data f rest, fetch = .success data → data.features = f :: rest →
            get_route apiKey fetch route =
              .ok { start_location := route.start_location,
                    end_location := route.end_location,
                    waypoints := none,
                    distance := (f.properties.getD emptyRouteProps).distance,
                    estimated_time := (f.properties.getD emptyRouteProps).duration,
                    traffic_conditions := (f.properties.getD emptyRouteProps).traffic,
                    route_type := some "fastest" }))
    ∧ get_route "k"
        (.success { features :=
          [{ properties := some { distance := some 100, duration := some 200,
                                  traffic := some "heavy" } }] })
        { start_location := "A", end_location := "B" } =
      .ok { start_location := "A", end_location := "B", waypoints := none,
            distance := some 100, estimated_time := some 200,
            traffic_conditions := some "heavy", route_type := some "fastest" } := by
  refine ⟨?_, ?_, rfl⟩
  · rintro (h | h) <;> simp [get_route, h]
  · intro h1 h2
    constructor
    · rintro data rfl hempty
      simp [get_route, h1, h2, hempty]
    · rintro data f rest rfl hcons
      simp [get_route, h1, h2, hcons]

/-- Witness for C7: the placeholder key fails 500, a configured key with an
empty features array fails 404. -/
theorem get_route_contract_witness :
    get_route "your_api_key_here" (.success {})
        { start_location := "A", end_location := "B" } =
      .error { status_code := 500, detail := "Geoapify API key not configured" }
    ∧ get_route "k" (.success {}) { start_location := "A", end_location := "B" } =
      .error { status_code := 404, detail := "No route found" } :=
  ⟨(get_route_contract "your_api_key_here" (.success {})
      { start_location := "A", end_location := "B" }).1 (Or.inr rfl),
   ((get_route_contract "k" (.success {})
      { start_location := "A", end_location := "B" }).2.1
      (by decide) (by decide)).1 {} rfl rfl⟩

lemma classifyAlerts_error_of_bad (l : List AlertFeature) :
    ∀ w : Weather,
    (∃ a ∈ l, a.properties = none ∨ ∃ p, a.properties = some p ∧ p.event = none) →
    ∃ msg, classifyAlerts w l = .error msg := by
  induction l with
  | nil =>
    intro w h
    simp at h
  | cons a t ih =>
    intro w h
    rcases h with ⟨b, hb, hbad⟩
    rcases List.mem_cons.mp hb with rfl | hmem
    · rcases hbad with hnone | ⟨p, hp, hev⟩
      · exact ⟨"KeyError: properties", by simp [classifyAlerts, hnone]⟩
      · exact ⟨"KeyError: event", by simp [classifyAlerts, hp, hev]⟩
    · cases hprops : a.properties with
      | none => exact ⟨"KeyError: properties", by simp [classifyAlerts, hprops]⟩
      | some p =>
        cases hev : p.event with
        | none => exact ⟨"KeyError: event", by simp [classifyAlerts, hprops, hev]⟩
        | some e =>
          rcases ih (classifyEvent w e) ⟨b, hmem, hbad⟩ with ⟨msg, hmsg⟩
          exact ⟨msg, by simp [classifyAlerts, hprops, hev, hmsg]⟩

/-- C10: fetch_weather_alerts answers the 503 weather error on a transport
failure, on a 2xx body that is not valid JSON, and on alerts lacking the
properties or event key; in each case the result is the error, so no
partially classified flag set is returned. -/
theorem fetch_weather_alerts_error_handling :
    (∀ msg, fetch_weather_alerts (.requestFailure msg) =
        .error { status_code := 503, detail := "Weather API error: " ++ msg })
    ∧ (∀ msg, fetch_weather_alerts (.invalidJson msg) =
        .error { status_code := 503, detail := "Weather API error: " ++ msg })
    ∧ (∀ data : AlertData,
        (∃ a ∈ data.features,
          a.properties = none ∨ ∃ p, a.properties = some p ∧ p.event = none) →
        ∃ msg, fetch_weather_alerts (.success data) =
          .error { status_code := 503, detail := "Weather API error: " ++ msg }) := by
  refine ⟨fun msg => rfl, fun msg => rfl, fun data h => ?_⟩
  rcases classifyAlerts_error_of_bad data.features {} h with ⟨msg, hmsg⟩
  exact ⟨msg, by simp [fetch_weather_alerts, hmsg]⟩

/-- Witness for C10: a feed whose single alert lacks the properties key. -/
theorem fetch_weather_alerts_error_handling_witness :
    ∃ msg, fetch_weather_alerts (.success { features := [{ properties := none }] }) =
      .error { status_code := 503, detail := "Weather API error: " ++ msg } :=
  fetch_weather_alerts_error_handling.2.2 { features := [{ properties := none }] }
    ⟨{ properties := none }, by simp, Or.inl rfl⟩
